import Mathlib

/-!
Verification of the authentication and authorization core of the
rest-api-demo repository, via a shallow embedding of the middleware,
controllers and JWT utilities.
-/

namespace RestApi

/-- Role of a user, as in the Prisma schema and the JwtPayload type
(src/types/index.ts). -/
inductive Role
  | ADMIN
  | USER
deriving DecidableEq, Repr

/-- Account status, as in the Prisma schema (ACTIVE or INACTIVE). -/
inductive Status
  | ACTIVE
  | INACTIVE
deriving DecidableEq, Repr

/-- Decoded JWT payload attached to a request (interface JwtPayload in
src/types/index.ts): userId, email and role. -/
structure JwtPayload where
  userId : String
  email : String
  role : Role
deriving DecidableEq, Repr

/-- Operational error (class AppError in src/types/error.types.ts):
a message together with an HTTP status code. -/
structure AppError where
  message : String
  statusCode : Nat
deriving DecidableEq, Repr

/-- Result of a guard middleware: either it calls next() with no argument
(the request passes) or it calls next(error). -/
inductive GuardResult
  | pass
  | fail (e : AppError)
deriving DecidableEq, Repr

/-- canAccessOwnProfile (src/middleware/permissions.middleware.ts).
With no identity attached it fails 401; otherwise it passes when the actor
is ADMIN, or the id route parameter equals the actor's userId, or the id
route parameter is the literal string "me"; otherwise it fails 403. -/
def canAccessOwnProfile (user : Option JwtPayload) (paramId : Option String) :
    GuardResult :=
  match user with
  | none => .fail ⟨"Authentication required", 401⟩
  | some u =>
      if u.role = Role.ADMIN ∨ paramId = some u.userId ∨ paramId = some "me" then
        .pass
      else
        .fail ⟨"Access denied", 403⟩

/-- requireOwnershipOrAdmin (src/middleware/auth.middleware.ts), applied to
the value of the configured route parameter: passes when the actor is ADMIN
or owns the resource; no "me" sentinel handling here. -/
def requireOwnershipOrAdmin (user : Option JwtPayload)
    (resourceUserId : Option String) : GuardResult :=
  match user with
  | none => .fail ⟨"Authentication required", 401⟩
  | some u =>
      if u.role = Role.ADMIN ∨ resourceUserId = some u.userId then
        .pass
      else
        .fail ⟨"Access denied", 403⟩

/-- Result of the "me" rewrite middleware: either the (possibly rewritten)
route parameter is handed to the next middleware, or an error is raised. -/
inductive RewriteResult
  | next (paramId : Option String)
  | fail (e : AppError)
deriving DecidableEq, Repr

/-- extractUserIdFromToken (src/middleware/auth.middleware.ts): requires an
identity, and replaces an id route parameter literally equal to "me" with
the actor's userId. -/
def extractUserIdFromToken (user : Option JwtPayload)
    (paramId : Option String) : RewriteResult :=
  match user with
  | none => .fail ⟨"Authentication required", 401⟩
  | some u =>
      .next (if paramId = some "me" then some u.userId else paramId)

/-- The route pipeline extractUserIdFromToken followed by
requireOwnershipOrAdmin, as composed on ownership-protected routes. -/
def meRewriteThenOwnership (user : Option JwtPayload)
    (paramId : Option String) : GuardResult :=
  match extractUserIdFromToken user paramId with
  | .fail e => .fail e
  | .next p => requireOwnershipOrAdmin user p

/-- Error classes thrown by the jsonwebtoken dependency on verification
failure. In that library TokenExpiredError is a subclass of
JsonWebTokenError, which the instance tests below reflect. -/
inductive JwtLibError
  | jsonWebTokenError
  | tokenExpiredError
deriving DecidableEq, Repr

/-- The instanceof JsonWebTokenError test: true also for
tokenExpiredError, because TokenExpiredError extends JsonWebTokenError. -/
def isInstanceOfJsonWebTokenError : JwtLibError → Bool
  | .jsonWebTokenError => true
  | .tokenExpiredError => true

/-- The instanceof TokenExpiredError test. -/
def isInstanceOfTokenExpiredError : JwtLibError → Bool
  | .jsonWebTokenError => false
  | .tokenExpiredError => true

/-- A signed JWT, modelled symbolically: jwt.sign embeds the payload, the
issue time iat, the expiry exp = iat + ttl (seconds) and is bound to the
signing secret; the signature verifies exactly when the verifying secret
equals the signing secret. -/
structure SignedToken where
  payload : JwtPayload
  iat : Nat
  exp : Nat
  secret : String
deriving DecidableEq, Repr

/-- The decoded payload returned by a successful jwt.verify: the claim
fields plus the codec-managed iat and exp. -/
structure VerifiedPayload where
  payload : JwtPayload
  iat : Nat
  exp : Nat
deriving DecidableEq, Repr

/-- jwt.verify of the jsonwebtoken dependency: the signature is checked
first, then expiry; the token counts as expired when now is at or past exp
(clockTimestamp greater or equal exp). -/
def jwtVerify (token : SignedToken) (secret : String) (now : Nat) :
    Except JwtLibError VerifiedPayload :=
  if token.secret ≠ secret then .error .jsonWebTokenError
  else if token.exp ≤ now then .error .tokenExpiredError
  else .ok ⟨token.payload, token.iat, token.exp⟩

/-- Environment configuration (src/config/config.ts). jwtExpiresIn is a
duration string; it is modelled here in seconds, with the default value
of 24h being 86400 seconds. -/
structure Config where
  nodeEnv : String
  jwtSecret : String
  jwtExpiresInSec : Nat
deriving DecidableEq, Repr

/-- Default of config.jwtExpiresIn, the string 24h, in seconds. -/
def defaultJwtExpiresInSec : Nat := 24 * 60 * 60

/-- The fixed refresh token expiry used by generateRefreshToken, the
string 7d, in seconds. -/
def refreshExpiresInSec : Nat := 7 * 24 * 60 * 60

/-- generateToken (src/utils/jwt.utils.ts): sign the payload with the
configured secret and the configured access-token ttl. -/
def generateToken (cfg : Config) (payload : JwtPayload) (now : Nat) :
    SignedToken :=
  ⟨payload, now, now + cfg.jwtExpiresInSec, cfg.jwtSecret⟩

/-- generateRefreshToken (src/utils/jwt.utils.ts): sign the payload with
the configured secret and a fixed 7-day ttl. -/
def generateRefreshToken (cfg : Config) (payload : JwtPayload) (now : Nat) :
    SignedToken :=
  ⟨payload, now, now + refreshExpiresInSec, cfg.jwtSecret⟩

/-- generateTokenPair (src/utils/jwt.utils.ts): access and refresh token
from the same payload. Exported by the utilities but not called by the
auth controller. -/
def generateTokenPair (cfg : Config) (payload : JwtPayload) (now : Nat) :
    SignedToken × SignedToken :=
  (generateToken cfg payload now, generateRefreshToken cfg payload now)

/-- verifyToken (src/utils/jwt.utils.ts): wraps jwt.verify, translating
library errors to AppError. The branch for instanceof JsonWebTokenError is
tested before the branch for instanceof TokenExpiredError, exactly as in
the source. -/
def verifyToken (cfg : Config) (token : SignedToken) (now : Nat) :
    Except AppError VerifiedPayload :=
  match jwtVerify token cfg.jwtSecret now with
  | .ok p => .ok p
  | .error e =>
      if isInstanceOfJsonWebTokenError e then .error ⟨"Invalid token", 401⟩
      else if isInstanceOfTokenExpiredError e then .error ⟨"Token expired", 401⟩
      else .error ⟨"Token verification failed", 401⟩

/-- Error handed to next() by the authentication middleware: either an
AppError built by the catch block, or a raw error forwarded unchanged by
its final else branch. -/
inductive MwError
  | app (e : AppError)
  | raw (e : JwtLibError)
deriving DecidableEq, Repr

/-- authenticateToken (src/middleware/auth.middleware.ts), given the token
extracted from the Authorization header (none when the header is absent or
lacks the Bearer marker). A missing token raises the required-token
AppError, which the catch block forwards unchanged; a verification error
is translated with the instanceof JsonWebTokenError test first, then the
instanceof TokenExpiredError test, as in the source catch block; any other
error is forwarded raw. -/
def authenticateToken (cfg : Config) (token : Option SignedToken)
    (now : Nat) : Except MwError VerifiedPayload :=
  match token with
  | none => .error (.app ⟨"Access token is required", 401⟩)
  | some t =>
      match jwtVerify t cfg.jwtSecret now with
      | .ok p => .ok p
      | .error e =>
          if isInstanceOfJsonWebTokenError e then
            .error (.app ⟨"Invalid token", 401⟩)
          else if isInstanceOfTokenExpiredError e then
            .error (.app ⟨"Token expired", 401⟩)
          else .error (.raw e)

/-- A stored user row as the auth controller sees it (Prisma User model):
id, email, hashed password, role and status. -/
structure DbUser where
  id : String
  email : String
  password : String
  role : Role
  status : Status
deriving DecidableEq, Repr

/-- createTokenPayload (src/utils/jwt.utils.ts): build the claim from the
user row. -/
def createTokenPayload (u : DbUser) : JwtPayload :=
  ⟨u.id, u.email, u.role⟩

/-- The HTTP outcome of AuthController.login, together with whether
UserService.verifyPassword was ever invoked on the way. The response type
AuthResponse of the source holds a single token field. -/
structure LoginOutcome where
  status : Nat
  success : Bool
  message : String
  token : Option SignedToken
  passwordChecked : Bool
deriving DecidableEq, Repr

/-- AuthController.login (src/controllers/auth.controller.ts): look the
user up by email (the lookup result is the argument found), answer 401
with a generic message when absent, answer 403 when the account status is
not ACTIVE — before any password check — then verify the password (the
bcrypt comparison outcome is the argument pwMatches) and on success issue
one access token with generateToken. -/
def login (cfg : Config) (found : Option DbUser) (pwMatches : Bool)
    (now : Nat) : LoginOutcome :=
  match found with
  | none => ⟨401, false, "Invalid email or password", none, false⟩
  | some u =>
      if u.status ≠ Status.ACTIVE then
        ⟨403, false, "Account is inactive. Please contact support.", none,
          false⟩
      else if ¬ pwMatches then
        ⟨401, false, "Invalid email or password", none, true⟩
      else
        ⟨200, true, "Login successful",
          some (generateToken cfg (createTokenPayload u) now), true⟩

/-- The HTTP outcome of AuthController.register when user creation
succeeded: status 201 and a single access token. -/
structure RegisterOutcome where
  status : Nat
  success : Bool
  token : SignedToken
deriving DecidableEq, Repr

/-- AuthController.register (src/controllers/auth.controller.ts), success
path: the created user row yields the token payload and one access token
via generateToken. -/
def register (cfg : Config) (created : DbUser) (now : Nat) :
    RegisterOutcome :=
  ⟨201, true, generateToken cfg (createTokenPayload created) now⟩

/-- A stored user row as the user service updates it: id and status. -/
structure UserRecord where
  id : String
  status : Status
deriving DecidableEq, Repr

/-- The user table of the store. -/
abbrev UserStore := List UserRecord

/-- prisma.user.findUnique on id. -/
def findUser (store : UserStore) (id : String) : Option UserRecord :=
  store.find? (fun u => u.id = id)

/-- prisma.user.update setting the status of the row with the given id. -/
def setStatus (store : UserStore) (id : String) (st : Status) : UserStore :=
  store.map (fun u => if u.id = id then ⟨u.id, st⟩ else u)

/-- UserService.updateUserStatus (src/services/user.service.ts): 404 when
the user does not exist, otherwise update the status. -/
def updateUserStatus (store : UserStore) (id : String) (st : Status) :
    Except AppError UserStore :=
  match findUser store id with
  | none => .error ⟨"User not found", 404⟩
  | some _ => .ok (setStatus store id st)

/-- UserService.blockUser: set status INACTIVE. -/
def serviceBlockUser (store : UserStore) (id : String) :
    Except AppError UserStore :=
  updateUserStatus store id Status.INACTIVE

/-- UserService.unblockUser: set status ACTIVE. -/
def serviceUnblockUser (store : UserStore) (id : String) :
    Except AppError UserStore :=
  updateUserStatus store id Status.ACTIVE

/-- UserService.deleteUser: soft delete, 404 when absent, otherwise set
status INACTIVE. -/
def serviceDeleteUser (store : UserStore) (id : String) :
    Except AppError UserStore :=
  match findUser store id with
  | none => .error ⟨"User not found", 404⟩
  | some _ => .ok (setStatus store id Status.INACTIVE)

/-- UserController.blockUser (src/controllers/user.controller.ts):
401 without identity, 403 for non-admins, 400 for a missing or empty id
parameter, 400 when the admin targets their own id, then the service call.
An error outcome leaves the store untouched by construction, matching the
source where the throw precedes the service call. -/
def controllerBlockUser (user : Option JwtPayload) (paramId : Option String)
    (store : UserStore) : Except AppError UserStore :=
  match user with
  | none => .error ⟨"Authentication required", 401⟩
  | some u =>
      if u.role ≠ Role.ADMIN then
        .error ⟨"Access denied. Admin privileges required.", 403⟩
      else
        match paramId with
        | none => .error ⟨"User ID is required", 400⟩
        | some id =>
            if id = "" then .error ⟨"User ID is required", 400⟩
            else if u.userId = id then
              .error ⟨"You cannot block yourself", 400⟩
            else serviceBlockUser store id

/-- UserController.unblockUser (src/controllers/user.controller.ts):
401 without identity, 403 for non-admins, 400 for a missing or empty id
parameter, then the service call. The source has no self-targeting check
in this handler. -/
def controllerUnblockUser (user : Option JwtPayload)
    (paramId : Option String) (store : UserStore) :
    Except AppError UserStore :=
  match user with
  | none => .error ⟨"Authentication required", 401⟩
  | some u =>
      if u.role ≠ Role.ADMIN then
        .error ⟨"Access denied. Admin privileges required.", 403⟩
      else
        match paramId with
        | none => .error ⟨"User ID is required", 400⟩
        | some id =>
            if id = "" then .error ⟨"User ID is required", 400⟩
            else serviceUnblockUser store id

/-- UserController.deleteUser (src/controllers/user.controller.ts):
401 without identity, 403 for non-admins, 400 for a missing or empty id
parameter, 400 when the admin targets their own id, then the service
soft delete. -/
def controllerDeleteUser (user : Option JwtPayload)
    (paramId : Option String) (store : UserStore) :
    Except AppError UserStore :=
  match user with
  | none => .error ⟨"Authentication required", 401⟩
  | some u =>
      if u.role ≠ Role.ADMIN then
        .error ⟨"Access denied. Admin privileges required.", 403⟩
      else
        match paramId with
        | none => .error ⟨"User ID is required", 400⟩
        | some id =>
            if id = "" then .error ⟨"User ID is required", 400⟩
            else if u.userId = id then
              .error ⟨"You cannot delete yourself", 400⟩
            else serviceDeleteUser store id

/-- Allow-list of fields a non-admin may update on their own profile
(UserController.updateUser). -/
def allowedFields : List String := ["fullName", "birthDate", "email"]

/-- UserController.updateUser (src/controllers/user.controller.ts). The
update payload is modelled by the list of its field names in key order.
401 without identity, 400 for a missing or empty id parameter, 403 when a
non-admin targets another user, 403 naming the offending fields when a
non-admin payload holds a field outside the allow-list; otherwise the
update is handed to the service, returned here as the target id and the
accepted field list. -/
def updateUser (user : Option JwtPayload) (paramId : Option String)
    (updateFields : List String) : Except AppError (String × List String) :=
  match user with
  | none => .error ⟨"Authentication required", 401⟩
  | some u =>
      match paramId with
      | none => .error ⟨"User ID is required", 400⟩
      | some id =>
          if id = "" then .error ⟨"User ID is required", 400⟩
          else if u.role ≠ Role.ADMIN ∧ u.userId ≠ id then
            .error ⟨"Access denied. You can only update your own profile.",
              403⟩
          else if u.role ≠ Role.ADMIN ∧
              updateFields.filter (fun f => ¬ allowedFields.contains f) ≠ []
            then
            .error
              ⟨"Access denied. You cannot update the following fields: " ++
                String.intercalate ", "
                  (updateFields.filter (fun f => ¬ allowedFields.contains f)),
                403⟩
          else .ok (id, updateFields)

/-- A thrown JS error as the global error handler receives it: name,
message, optional stack, and statusCode when present (AppError instances
and other API errors carry one). -/
structure JsError where
  name : String
  message : String
  stack : Option String
  statusCode : Option Nat
deriving DecidableEq, Repr

/-- The request data available to the error handler. -/
structure RequestInfo where
  url : String
  method : String
deriving DecidableEq, Repr

/-- The error envelope written by errorHandler
(src/middleware/error.middleware.ts). Optional fields are none when the
handler does not set them; the handler of this file never writes path or
method fields, so they are carried here only to make their absence
expressible. -/
structure ErrorEnvelope where
  success : Bool
  message : String
  timestamp : Nat
  errorName : Option String
  stack : Option String
  path : Option String
  method : Option String
deriving DecidableEq, Repr

/-- errorHandler (src/middleware/error.middleware.ts): status and message
come from the error when it carries a statusCode (AppError or other API
error), else 500 with a generic message; the envelope always holds
success false, the message and a timestamp; the error name, and the stack
when truthy, are added only when nodeEnv is development. The source never
writes path or method into this envelope. -/
def errorHandler (cfg : Config) (error : JsError) (_req : RequestInfo)
    (now : Nat) : Nat × ErrorEnvelope :=
  let statusCode := match error.statusCode with
    | some c => c
    | none => 500
  let message := match error.statusCode with
    | some _ => error.message
    | none => "Internal Server Error"
  let base : ErrorEnvelope := ⟨false, message, now, none, none, none, none⟩
  let resp :=
    if cfg.nodeEnv = "development" then
      { base with
          errorName := some error.name,
          stack := match error.stack with
            | some s => if s ≠ "" then some s else none
            | none => none }
    else base
  (statusCode, resp)

/-- Configuration of one express-rate-limit instance as built in
src/middleware/security.middleware.ts: the window in milliseconds, the
maximum number of requests per window, the retryAfter hint carried in the
429 message body, and the skipSuccessfulRequests flag. -/
structure RateLimitConfig where
  windowMs : Nat
  maxReq : Nat
  retryAfterHint : String
  skipSuccessfulRequests : Bool
deriving DecidableEq, Repr

/-- authRateLimit: 15 minutes, 5 requests, skipSuccessfulRequests on. -/
def authRateLimit : RateLimitConfig :=
  ⟨15 * 60 * 1000, 5, "15 minutes", true⟩

/-- apiRateLimit: 15 minutes, 100 requests. -/
def apiRateLimit : RateLimitConfig :=
  ⟨15 * 60 * 1000, 100, "15 minutes", false⟩

/-- adminRateLimit: 5 minutes, 20 requests. -/
def adminRateLimit : RateLimitConfig :=
  ⟨5 * 60 * 1000, 20, "5 minutes", false⟩

/-- A rate-limit bucket for one client key and one limiter instance: the
request count and the window start time (milliseconds). -/
structure Bucket where
  count : Nat
  windowStart : Nat
deriving DecidableEq, Repr

/-- Modelled from the spec: the fixed-window counter of the external
express-rate-limit dependency, which is not part of this repository. The
spec describes it as a fixed window counter per client key: the count
resets when the window elapses, a request is allowed while the count stays
within the maximum, and with skipSuccessfulRequests a request that
ultimately succeeded is not counted. One step processes one request at
time now whose eventual success is the argument succeeded, and returns
whether it passes together with the new bucket. -/
def rlStep (cfg : RateLimitConfig) (b : Bucket) (now : Nat)
    (succeeded : Bool) : Bool × Bucket :=
  let b0 := if b.windowStart + cfg.windowMs ≤ now then
      (⟨0, now⟩ : Bucket)
    else b
  if b0.count + 1 ≤ cfg.maxReq then
    (true,
      ⟨if cfg.skipSuccessfulRequests && succeeded then b0.count
        else b0.count + 1, b0.windowStart⟩)
  else
    (false, ⟨b0.count + 1, b0.windowStart⟩)

/-- Modelled from the spec: the 429 rejection body sent when a request is
not allowed, carrying the human-readable retryAfter hint of the limiter
configuration; an allowed request produces no rejection. -/
def rlResponse (cfg : RateLimitConfig) (allowed : Bool) :
    Option (Nat × String) :=
  if allowed then none else some (429, cfg.retryAfterHint)

/-- Modelled from the spec: a client's request sequence through one
limiter, each request given as time and eventual success; returns the pass
decisions in order and the final bucket. -/
def rlRun (cfg : RateLimitConfig) (b : Bucket) :
    List (Nat × Bool) → List Bool × Bucket
  | [] => ([], b)
  | (now, succ) :: rest =>
      let (a, b1) := rlStep cfg b now succ
      let (as, b2) := rlRun cfg b1 rest
      (a :: as, b2)

/-- Unfolding of canAccessOwnProfile on a present identity and parameter. -/
theorem canAccessOwnProfile_some (u : JwtPayload) (s : String) :
    canAccessOwnProfile (some u) (some s) =
      if u.role = Role.ADMIN ∨ s = u.userId ∨ s = "me" then .pass
      else .fail ⟨"Access denied", 403⟩ := by
  simp only [canAccessOwnProfile, Option.some.injEq]

/-- Unfolding of requireOwnershipOrAdmin on a present identity. -/
theorem requireOwnershipOrAdmin_some (u : JwtPayload) (p : Option String) :
    requireOwnershipOrAdmin (some u) p =
      if u.role = Role.ADMIN ∨ p = some u.userId then .pass
      else .fail ⟨"Access denied", 403⟩ := by
  simp only [requireOwnershipOrAdmin]

/-- C1: for every authenticated identity and every value of the id route
parameter, the ownership guard passes exactly when the actor role is ADMIN,
or the actor userId equals the parameter, or the parameter is literally
"me"; in every other case it fails with the 403 access-denied error, and
with the 401 authentication-required error when no identity is attached.
This holds both for the canAccessOwnProfile guard and for the pipeline of
the "me" rewrite followed by requireOwnershipOrAdmin. -/
theorem ownership_guard_characterization (u : JwtPayload) (s : String) :
    (canAccessOwnProfile (some u) (some s) = .pass ↔
      (u.role = Role.ADMIN ∨ s = u.userId ∨ s = "me")) ∧
    (¬ (u.role = Role.ADMIN ∨ s = u.userId ∨ s = "me") →
      canAccessOwnProfile (some u) (some s) = .fail ⟨"Access denied", 403⟩) ∧
    canAccessOwnProfile none (some s) =
      .fail ⟨"Authentication required", 401⟩ ∧
    (meRewriteThenOwnership (some u) (some s) = .pass ↔
      (u.role = Role.ADMIN ∨ s = u.userId ∨ s = "me")) ∧
    (¬ (u.role = Role.ADMIN ∨ s = u.userId ∨ s = "me") →
      meRewriteThenOwnership (some u) (some s) =
        .fail ⟨"Access denied", 403⟩) ∧
    meRewriteThenOwnership none (some s) =
      .fail ⟨"Authentication required", 401⟩ := by
  have hmain : meRewriteThenOwnership (some u) (some s) =
      if u.role = Role.ADMIN ∨ s = u.userId ∨ s = "me" then .pass
      else .fail ⟨"Access denied", 403⟩ := by
    by_cases hme : s = "me"
    · subst hme
      simp [meRewriteThenOwnership, extractUserIdFromToken,
        requireOwnershipOrAdmin_some]
    · simp only [meRewriteThenOwnership, extractUserIdFromToken,
        Option.some.injEq, if_neg hme, requireOwnershipOrAdmin_some]
      by_cases h : u.role = Role.ADMIN ∨ s = u.userId
      · rcases h with h | h <;> simp [h]
      · push_neg at h
        simp [h.1, h.2, hme, eq_comm]
  refine ⟨?_, ?_, rfl, ?_, ?_, rfl⟩
  · rw [canAccessOwnProfile_some]
    by_cases h : u.role = Role.ADMIN ∨ s = u.userId ∨ s = "me" <;> simp [h]
  · intro h
    rw [canAccessOwnProfile_some, if_neg h]
  · rw [hmain]
    by_cases h : u.role = Role.ADMIN ∨ s = u.userId ∨ s = "me" <;> simp [h]
  · intro h
    rw [hmain, if_neg h]

/-- Concrete instances of the ownership guard characterization: a USER
actor reaches the sentinel "me" and their own id, and is rejected 403 on a
foreign id. -/
theorem ownership_guard_characterization_witness :
    canAccessOwnProfile (some ⟨"123", "a@b.c", Role.USER⟩) (some "me") =
      .pass ∧
    meRewriteThenOwnership (some ⟨"123", "a@b.c", Role.USER⟩) (some "456") =
      .fail ⟨"Access denied", 403⟩ := by
  constructor
  · exact (ownership_guard_characterization ⟨"123", "a@b.c", Role.USER⟩
      "me").1.mpr (by simp)
  · exact (ownership_guard_characterization ⟨"123", "a@b.c", Role.USER⟩
      "456").2.2.2.2.1 (by simp)

/-- C2 fails on the code: a token with a valid signature whose expiry lies
in the past is rejected by verifyToken and by the authentication gate with
the invalid-token error, not the token-expired error, because the branch
for instanceof JsonWebTokenError is tested first and TokenExpiredError is
a subclass of JsonWebTokenError. -/
theorem expired_token_claim_false :
    verifyToken ⟨"test", "s3cret", 86400⟩
        ⟨⟨"u1", "a@b.c", Role.USER⟩, 0, 10, "s3cret"⟩ 10 =
      .error ⟨"Invalid token", 401⟩ ∧
    verifyToken ⟨"test", "s3cret", 86400⟩
        ⟨⟨"u1", "a@b.c", Role.USER⟩, 0, 10, "s3cret"⟩ 10 ≠
      .error ⟨"Token expired", 401⟩ ∧
    authenticateToken ⟨"test", "s3cret", 86400⟩
        (some ⟨⟨"u1", "a@b.c", Role.USER⟩, 0, 10, "s3cret"⟩) 10 =
      .error (.app ⟨"Invalid token", 401⟩) := by
  refine ⟨rfl, ?_, rfl⟩
  simp [verifyToken, jwtVerify, isInstanceOfJsonWebTokenError]

/-- C2 amended: every expired token fails with HTTP 401, but with the
message Invalid token rather than Token expired, in verifyToken and in the
authentication gate alike: the TokenExpiredError thrown by the library is
an instance of JsonWebTokenError, so the first catch branch handles it and
the dedicated token-expired branch is unreachable. -/
theorem expired_token_invalid_message (cfg : Config) (t : SignedToken)
    (now : Nat) (hsig : t.secret = cfg.jwtSecret) (hexp : t.exp ≤ now) :
    verifyToken cfg t now = .error ⟨"Invalid token", 401⟩ ∧
    authenticateToken cfg (some t) now =
      .error (.app ⟨"Invalid token", 401⟩) ∧
    (∀ e : JwtLibError, isInstanceOfTokenExpiredError e = true →
      isInstanceOfJsonWebTokenError e = true) := by
  have hv : jwtVerify t cfg.jwtSecret now = .error .tokenExpiredError := by
    simp [jwtVerify, hsig, hexp]
  refine ⟨?_, ?_, ?_⟩
  · simp [verifyToken, hv, isInstanceOfJsonWebTokenError]
  · simp [authenticateToken, hv, isInstanceOfJsonWebTokenError]
  · intro e _
    cases e <;> rfl

/-- Concrete instance of the amended expired-token behavior. -/
theorem expired_token_invalid_message_witness :
    verifyToken ⟨"test", "k", 3600⟩
        ⟨⟨"u2", "c@d.e", Role.ADMIN⟩, 5, 12, "k"⟩ 12 =
      .error ⟨"Invalid token", 401⟩ := by
  exact (expired_token_invalid_message ⟨"test", "k", 3600⟩
    ⟨⟨"u2", "c@d.e", Role.ADMIN⟩, 5, 12, "k"⟩ 12 rfl (by simp)).1

/-- C5: issuing a token from a claim and verifying it while the current
time lies within the ttl window returns the same userId, email and role,
with issue time now0 and expiry exactly issuedAt plus the configured ttl
(hence within issuedAt plus ttl). -/
theorem token_roundtrip (cfg : Config) (payload : JwtPayload)
    (now0 now1 : Nat) (_h0 : now0 ≤ now1)
    (h1 : now1 < now0 + cfg.jwtExpiresInSec) :
    verifyToken cfg (generateToken cfg payload now0) now1 =
      .ok ⟨payload, now0, now0 + cfg.jwtExpiresInSec⟩ := by
  have hlt : ¬ (now0 + cfg.jwtExpiresInSec ≤ now1) := by omega
  simp [verifyToken, generateToken, jwtVerify, hlt]

/-- Concrete instance of the token round-trip law. -/
theorem token_roundtrip_witness :
    verifyToken ⟨"development", "secret0", 86400⟩
        (generateToken ⟨"development", "secret0", 86400⟩
          ⟨"u7", "g@h.i", Role.USER⟩ 1000) 5000 =
      .ok ⟨⟨"u7", "g@h.i", Role.USER⟩, 1000, 87400⟩ := by
  exact token_roundtrip ⟨"development", "secret0", 86400⟩
    ⟨"u7", "g@h.i", Role.USER⟩ 1000 5000 (by omega) (by decide)

/-- C3 fails on the code: an admin whose userId equals the id parameter is
not stopped by unblockUser; the self-unblock proceeds to the service and
succeeds with a state change, instead of failing with 400. -/
theorem self_admin_actions_claim_false :
    controllerUnblockUser (some ⟨"a1", "adm@x.y", Role.ADMIN⟩) (some "a1")
      [⟨"a1", Status.INACTIVE⟩] = .ok [⟨"a1", Status.ACTIVE⟩] := by
  simp [controllerUnblockUser, serviceUnblockUser, updateUserStatus,
    findUser, setStatus]

/-- C3 amended: for an admin actor targeting their own id, blockUser and
deleteUser fail with the 400 self-action errors (the store is untouched by
construction, the throw precedes the service call), while unblockUser has
no self-check and simply performs the service unblock. -/
theorem self_admin_actions_amended (u : JwtPayload) (store : UserStore)
    (id : String) (hadmin : u.role = Role.ADMIN) (hself : u.userId = id)
    (hne : id ≠ "") :
    controllerBlockUser (some u) (some id) store =
      .error ⟨"You cannot block yourself", 400⟩ ∧
    controllerDeleteUser (some u) (some id) store =
      .error ⟨"You cannot delete yourself", 400⟩ ∧
    controllerUnblockUser (some u) (some id) store =
      serviceUnblockUser store id := by
  refine ⟨?_, ?_, ?_⟩ <;>
    simp [controllerBlockUser, controllerDeleteUser, controllerUnblockUser,
      hadmin, hself, hne]

/-- Concrete instance of the amended self-action behavior. -/
theorem self_admin_actions_amended_witness :
    controllerBlockUser (some ⟨"a2", "adm@x.y", Role.ADMIN⟩) (some "a2")
      [⟨"a2", Status.ACTIVE⟩] =
      .error ⟨"You cannot block yourself", 400⟩ := by
  exact (self_admin_actions_amended ⟨"a2", "adm@x.y", Role.ADMIN⟩
    [⟨"a2", Status.ACTIVE⟩] "a2" rfl rfl (by simp)).1

/-- C4 fails on the code: a successful login response carries a single
token, the access token built by generateToken; the refresh token that
generateTokenPair would add is a different token (its expiry is seven
days, not the access ttl) and appears nowhere in the login or register
response, whose source type AuthResponse has one token field. -/
theorem token_pair_claim_false :
    (login ⟨"production", "s3", 86400⟩
        (some ⟨"u1", "a@b.c", "hash", Role.USER, Status.ACTIVE⟩) true
        0).token =
      some (generateToken ⟨"production", "s3", 86400⟩
        ⟨"u1", "a@b.c", Role.USER⟩ 0) ∧
    (register ⟨"production", "s3", 86400⟩
        ⟨"u1", "a@b.c", "hash", Role.USER, Status.ACTIVE⟩ 0).token =
      generateToken ⟨"production", "s3", 86400⟩ ⟨"u1", "a@b.c", Role.USER⟩
        0 ∧
    generateRefreshToken ⟨"production", "s3", 86400⟩
        ⟨"u1", "a@b.c", Role.USER⟩ 0 ≠
      generateToken ⟨"production", "s3", 86400⟩ ⟨"u1", "a@b.c", Role.USER⟩
        0 := by
  refine ⟨rfl, rfl, ?_⟩
  simp [generateRefreshToken, generateToken, refreshExpiresInSec]

/-- C4 amended: login and register each issue exactly one token, the
access token signed with the configured ttl; the generateTokenPair
utility, which the auth controller does not call, builds an access and a
refresh token from the same payload at the same issue time with the same
secret, differing only in expiry: the configured access ttl against the
fixed seven days. -/
theorem single_token_amended (cfg : Config) (u : DbUser) (p : JwtPayload)
    (now : Nat) (hact : u.status = Status.ACTIVE) :
    login cfg (some u) true now =
      ⟨200, true, "Login successful",
        some (generateToken cfg (createTokenPayload u) now), true⟩ ∧
    register cfg u now =
      ⟨201, true, generateToken cfg (createTokenPayload u) now⟩ ∧
    (generateTokenPair cfg p now).1.payload = p ∧
    (generateTokenPair cfg p now).2.payload = p ∧
    (generateTokenPair cfg p now).1.iat = now ∧
    (generateTokenPair cfg p now).2.iat = now ∧
    (generateTokenPair cfg p now).1.secret =
      (generateTokenPair cfg p now).2.secret ∧
    (generateTokenPair cfg p now).1.exp = now + cfg.jwtExpiresInSec ∧
    (generateTokenPair cfg p now).2.exp = now + refreshExpiresInSec := by
  refine ⟨?_, rfl, rfl, rfl, rfl, rfl, rfl, rfl, rfl⟩
  simp [login, hact]

/-- Concrete instance of the single-token issuance. -/
theorem single_token_amended_witness :
    login ⟨"production", "s4", 86400⟩
        (some ⟨"u3", "e@f.g", "hash", Role.USER, Status.ACTIVE⟩) true 7 =
      ⟨200, true, "Login successful",
        some (generateToken ⟨"production", "s4", 86400⟩
          ⟨"u3", "e@f.g", Role.USER⟩ 7), true⟩ := by
  exact (single_token_amended ⟨"production", "s4", 86400⟩
    ⟨"u3", "e@f.g", "hash", Role.USER, Status.ACTIVE⟩
    ⟨"u3", "e@f.g", Role.USER⟩ 7 rfl).1

/-- Unfolding of updateUser for a non-admin actor on their own profile:
only the allow-list check remains. -/
theorem updateUser_own_profile (u : JwtPayload) (fields : List String)
    (hu : u.role ≠ Role.ADMIN) (hid : u.userId ≠ "") :
    updateUser (some u) (some u.userId) fields =
      if fields.filter (fun f => ¬ allowedFields.contains f) = [] then
        .ok (u.userId, fields)
      else
        .error ⟨"Access denied. You cannot update the following fields: " ++
          String.intercalate ", "
            (fields.filter (fun f => ¬ allowedFields.contains f)), 403⟩ := by
  have hown : ¬ (u.role ≠ Role.ADMIN ∧ u.userId ≠ u.userId) := by simp
  simp only [updateUser, if_neg hid, if_neg hown]
  by_cases hf : fields.filter (fun f => ¬ allowedFields.contains f) = []
  · rw [if_pos hf, if_neg (fun h => h.2 hf)]
  · rw [if_neg hf, if_pos ⟨hu, hf⟩]

/-- C6: a non-admin actor updating their own profile succeeds through the
field guard exactly when every field of the payload lies in the allow-list
fullName, birthDate, email; otherwise the request fails 403 with a message
naming exactly the offending fields, in payload order; and an admin actor
is not subject to the allow-list: any field list passes through to the
service. -/
theorem update_allowlist (u a : JwtPayload) (id : String)
    (fields : List String) (hu : u.role ≠ Role.ADMIN) (hid : u.userId ≠ "")
    (ha : a.role = Role.ADMIN) (hidne : id ≠ "") :
    (updateUser (some u) (some u.userId) fields = .ok (u.userId, fields) ↔
      ∀ f ∈ fields, f ∈ allowedFields) ∧
    (fields.filter (fun f => ¬ allowedFields.contains f) ≠ [] →
      updateUser (some u) (some u.userId) fields =
        .error ⟨"Access denied. You cannot update the following fields: " ++
          String.intercalate ", "
            (fields.filter (fun f => ¬ allowedFields.contains f)), 403⟩) ∧
    updateUser (some a) (some id) fields = .ok (id, fields) := by
  have hfilter : fields.filter (fun f => ¬ allowedFields.contains f) = [] ↔
      ∀ f ∈ fields, f ∈ allowedFields := by
    simp [List.filter_eq_nil_iff]
  refine ⟨?_, ?_, ?_⟩
  · rw [updateUser_own_profile u fields hu hid, ← hfilter]
    by_cases hf : fields.filter (fun f => ¬ allowedFields.contains f) = [] <;>
      simp [hf]
  · intro hne
    rw [updateUser_own_profile u fields hu hid, if_neg hne]
  · simp [updateUser, hidne, ha]

/-- Concrete instances of the field allow-list: a USER submitting a role
field on their own profile is rejected 403 naming role, the same payload
from an ADMIN passes, and an allow-listed payload from the USER passes. -/
theorem update_allowlist_witness :
    updateUser (some ⟨"u1", "a@b.c", Role.USER⟩) (some "u1") ["role"] =
      .error ⟨"Access denied. You cannot update the following fields: role",
        403⟩ ∧
    updateUser (some ⟨"a1", "adm@x.y", Role.ADMIN⟩) (some "u1") ["role"] =
      .ok ("u1", ["role"]) ∧
    updateUser (some ⟨"u1", "a@b.c", Role.USER⟩) (some "u1")
      ["fullName", "email"] = .ok ("u1", ["fullName", "email"]) := by
  have h := update_allowlist ⟨"u1", "a@b.c", Role.USER⟩
    ⟨"a1", "adm@x.y", Role.ADMIN⟩ "u1" ["role"] (by simp) (by simp) rfl
    (by simp)
  have h2 := update_allowlist ⟨"u1", "a@b.c", Role.USER⟩
    ⟨"a1", "adm@x.y", Role.ADMIN⟩ "u1" ["fullName", "email"] (by simp)
    (by simp) rfl (by simp)
  refine ⟨?_, h.2.2, ?_⟩
  · have := h.2.1 (by simp [allowedFields])
    simpa [allowedFields] using this
  · exact h2.1.mpr (by simp [allowedFields])

/-- C7 fails on the code: the envelope written by this errorHandler has no
path and no method, even though the request data is at hand; here a
concrete AppError handled in production mode yields an envelope whose path
and method fields are unset. -/
theorem error_envelope_claim_false :
    ((errorHandler ⟨"production", "s", 86400⟩
        ⟨"Error", "Boom", some "trace", some 500⟩
        ⟨"/api/users", "GET"⟩ 42).2.path = none) ∧
    ((errorHandler ⟨"production", "s", 86400⟩
        ⟨"Error", "Boom", some "trace", some 500⟩
        ⟨"/api/users", "GET"⟩ 42).2.method = none) := by
  constructor <;> rfl

/-- C7 amended: for every failure reaching the error translator the
envelope holds success false, the message and a timestamp, but not the
request path or method; the error name and the stack appear only when
nodeEnv is development (the stack additionally only when present and
non-empty), and never otherwise, in particular never in production. -/
theorem error_envelope_amended (cfg : Config) (e : JsError)
    (req : RequestInfo) (now : Nat) :
    (errorHandler cfg e req now).2.success = false ∧
    (errorHandler cfg e req now).2.timestamp = now ∧
    (errorHandler cfg e req now).2.path = none ∧
    (errorHandler cfg e req now).2.method = none ∧
    (cfg.nodeEnv ≠ "development" →
      (errorHandler cfg e req now).2.stack = none ∧
      (errorHandler cfg e req now).2.errorName = none) ∧
    (cfg.nodeEnv = "development" →
      (errorHandler cfg e req now).2.errorName = some e.name ∧
      ∀ s : String, e.stack = some s → s ≠ "" →
        (errorHandler cfg e req now).2.stack = some s) := by
  by_cases hdev : cfg.nodeEnv = "development"
  · refine ⟨by simp [errorHandler, hdev], by simp [errorHandler, hdev],
      by simp [errorHandler, hdev], by simp [errorHandler, hdev],
      fun h => absurd hdev h, fun _ => ⟨by simp [errorHandler, hdev], ?_⟩⟩
    intro s hs hne
    simp [errorHandler, hdev, hs, hne]
  · refine ⟨by simp [errorHandler, hdev], by simp [errorHandler, hdev],
      by simp [errorHandler, hdev], by simp [errorHandler, hdev],
      fun _ => ⟨by simp [errorHandler, hdev], by simp [errorHandler, hdev]⟩,
      fun h => absurd h hdev⟩

/-- Concrete instance of the amended envelope behavior: in production the
stack and the error name are withheld. -/
theorem error_envelope_amended_witness :
    (errorHandler ⟨"production", "s", 86400⟩
        ⟨"Error", "Boom", some "trace", some 500⟩
        ⟨"/api/users", "GET"⟩ 42).2.success = false ∧
    (errorHandler ⟨"production", "s", 86400⟩
        ⟨"Error", "Boom", some "trace", some 500⟩
        ⟨"/api/users", "GET"⟩ 42).2.stack = none := by
  have h := error_envelope_amended ⟨"production", "s", 86400⟩
    ⟨"Error", "Boom", some "trace", some 500⟩ ⟨"/api/users", "GET"⟩ 42
  exact ⟨h.1, (h.2.2.2.2.1 (by simp)).1⟩

/-- C9: a login with an unknown email and a login with an existing ACTIVE
account but a failed password comparison produce the same HTTP status 401
and the same message Invalid email or password, and neither carries a
token, so the two responses never reveal whether the email exists. -/
theorem login_indistinguishable (cfg : Config) (u : DbUser) (pw : Bool)
    (now : Nat) (hact : u.status = Status.ACTIVE) :
    (login cfg none pw now).status = 401 ∧
    (login cfg none pw now).message = "Invalid email or password" ∧
    (login cfg (some u) false now).status = 401 ∧
    (login cfg (some u) false now).message = "Invalid email or password" ∧
    (login cfg none pw now).status = (login cfg (some u) false now).status ∧
    (login cfg none pw now).message =
      (login cfg (some u) false now).message ∧
    (login cfg none pw now).token = none ∧
    (login cfg (some u) false now).token = none := by
  simp [login, hact]

/-- Concrete instance of the login ambiguity: unknown email and wrong
password give literally the same status and message. -/
theorem login_indistinguishable_witness :
    (login ⟨"production", "s", 86400⟩ none true 0).status = 401 ∧
    (login ⟨"production", "s", 86400⟩
      (some ⟨"u1", "a@b.c", "hash", Role.USER, Status.ACTIVE⟩) false
      0).message = "Invalid email or password" := by
  have h := login_indistinguishable ⟨"production", "s", 86400⟩
    ⟨"u1", "a@b.c", "hash", Role.USER, Status.ACTIVE⟩ true 0 rfl
  exact ⟨h.1, h.2.2.2.1⟩

/-- C10: a login against an existing account whose status is not ACTIVE
fails with 403 and the inactive-account message whatever the submitted
password, the password is never verified, and the response differs from
the generic invalid-credentials response, revealing that the account
exists. -/
theorem inactive_login_403 (cfg : Config) (u : DbUser) (pw : Bool)
    (now : Nat) (hina : u.status ≠ Status.ACTIVE) :
    login cfg (some u) pw now =
      ⟨403, false, "Account is inactive. Please contact support.", none,
        false⟩ ∧
    (login cfg (some u) pw now).passwordChecked = false ∧
    (login cfg (some u) pw now).status ≠ (login cfg none pw now).status ∧
    (login cfg (some u) pw now).message ≠
      (login cfg none pw now).message := by
  refine ⟨by simp [login, hina], by simp [login, hina], ?_, ?_⟩
  · simp [login, hina]
  · simp [login, hina]

/-- Concrete instance of the inactive-account login behavior. -/
theorem inactive_login_403_witness :
    login ⟨"production", "s", 86400⟩
        (some ⟨"u1", "a@b.c", "hash", Role.USER, Status.INACTIVE⟩) true 0 =
      ⟨403, false, "Account is inactive. Please contact support.", none,
        false⟩ := by
  exact (inactive_login_403 ⟨"production", "s", 86400⟩
    ⟨"u1", "a@b.c", "hash", Role.USER, Status.INACTIVE⟩ true 0
    (by simp)).1

/-- Number of passed requests in a decision list. -/
def countTrue : List Bool → Nat
  | [] => 0
  | true :: rest => countTrue rest + 1
  | false :: rest => countTrue rest

/-- Counting lemma for a run whose requests all fall inside the window
starting at w and are all counted (either the limiter does not skip
successes or the request failed): from count c, exactly
min length (maxReq - c) requests pass. -/
theorem rlRun_count (cfg : RateLimitConfig) (w : Nat)
    (reqs : List (Nat × Bool)) :
    ∀ c, (∀ r ∈ reqs, r.1 < w + cfg.windowMs) →
      (∀ r ∈ reqs, cfg.skipSuccessfulRequests = false ∨ r.2 = false) →
      countTrue (rlRun cfg ⟨c, w⟩ reqs).1 =
        min reqs.length (cfg.maxReq - c) := by
  induction reqs with
  | nil => intro c _ _; simp [rlRun, countTrue]
  | cons hd tl ih =>
      intro c hwin hcnt
      obtain ⟨now, succ⟩ := hd
      have hw : ¬ (w + cfg.windowMs ≤ now) := by
        have := hwin (now, succ) (by simp)
        simp only at this
        omega
      have hskip : (cfg.skipSuccessfulRequests && succ) = false := by
        rcases hcnt (now, succ) (by simp) with h | h
        · simp [h]
        · have h2 : succ = false := h
          simp [h2]
      have htl1 : ∀ r ∈ tl, r.1 < w + cfg.windowMs := by
        intro r hr; exact hwin r (by simp [hr])
      have htl2 : ∀ r ∈ tl,
          cfg.skipSuccessfulRequests = false ∨ r.2 = false := by
        intro r hr; exact hcnt r (by simp [hr])
      by_cases hal : c + 1 ≤ cfg.maxReq
      · have hstep : rlStep cfg ⟨c, w⟩ now succ = (true, ⟨c + 1, w⟩) := by
          simp [rlStep, hw, hal, hskip]
        have hrec := ih (c + 1) htl1 htl2
        simp only [rlRun, hstep, countTrue, hrec, List.length_cons]
        omega
      · have hstep : rlStep cfg ⟨c, w⟩ now succ = (false, ⟨c + 1, w⟩) := by
          simp [rlStep, hw, hal]
        have hrec := ih (c + 1) htl1 htl2
        simp only [rlRun, hstep, countTrue, hrec, List.length_cons]
        omega

/-- C8: the three limiter instances carry the configured ceilings and
windows (auth 5 per 15 minutes with skipSuccessfulRequests, api 100 per
15 minutes, admin 20 per 5 minutes); in any run of counted requests
within one window exactly min of length and maxReq pass, so at most
maxReq; with the counter at or beyond maxReq, the next in-window request
is rejected and its body is a 429 with the retryAfter hint; once the
window has elapsed, the counter resets and the next request passes; and
for a skip-on-success limiter an allowed request that ultimately
succeeded leaves the counter unchanged. -/
theorem rate_limiter_invariant (cfg : RateLimitConfig) (w c now : Nat)
    (s : Bool) (reqs : List (Nat × Bool)) :
    authRateLimit = ⟨900000, 5, "15 minutes", true⟩ ∧
    apiRateLimit = ⟨900000, 100, "15 minutes", false⟩ ∧
    adminRateLimit = ⟨300000, 20, "5 minutes", false⟩ ∧
    ((∀ r ∈ reqs, r.1 < w + cfg.windowMs) →
      (∀ r ∈ reqs, cfg.skipSuccessfulRequests = false ∨ r.2 = false) →
      countTrue (rlRun cfg ⟨0, w⟩ reqs).1 =
        min reqs.length cfg.maxReq ∧
      countTrue (rlRun cfg ⟨0, w⟩ reqs).1 ≤ cfg.maxReq) ∧
    (cfg.maxReq ≤ c → now < w + cfg.windowMs →
      (rlStep cfg ⟨c, w⟩ now s).1 = false ∧
      rlResponse cfg (rlStep cfg ⟨c, w⟩ now s).1 =
        some (429, cfg.retryAfterHint)) ∧
    (w + cfg.windowMs ≤ now → 1 ≤ cfg.maxReq →
      (rlStep cfg ⟨c, w⟩ now s).1 = true ∧
      (rlStep cfg ⟨c, w⟩ now s).2.windowStart = now) ∧
    (cfg.skipSuccessfulRequests = true → now < w + cfg.windowMs →
      c + 1 ≤ cfg.maxReq →
      rlStep cfg ⟨c, w⟩ now true = (true, ⟨c, w⟩)) := by
  refine ⟨rfl, rfl, rfl, ?_, ?_, ?_, ?_⟩
  · intro hwin hcnt
    have h := rlRun_count cfg w reqs 0 hwin hcnt
    constructor
    · simpa using h
    · rw [h]; omega
  · intro hc hnow
    have hw : ¬ (w + cfg.windowMs ≤ now) := by omega
    have hal : ¬ (c + 1 ≤ cfg.maxReq) := by omega
    constructor
    · simp [rlStep, hw, hal]
    · simp [rlStep, rlResponse, hw, hal]
  · intro hreset hmax
    have hal : 0 + 1 ≤ cfg.maxReq := by omega
    constructor
    · simp [rlStep, hreset, hal]
    · simp [rlStep, hreset, hal]
  · intro hskip hnow hal
    have hw : ¬ (w + cfg.windowMs ≤ now) := by omega
    simp [rlStep, hw, hal, hskip]

/-- Concrete instance of the rate-limiter behavior: the sixth
authentication attempt inside one fresh window, none of them successful,
is rejected with 429 and the 15-minutes retry hint. -/
theorem rate_limiter_invariant_witness :
    countTrue (rlRun authRateLimit ⟨0, 0⟩
      [(0, false), (1, false), (2, false), (3, false), (4, false),
        (5, false)]).1 = 5 ∧
    rlResponse authRateLimit (rlStep authRateLimit ⟨5, 0⟩ 6 false).1 =
      some (429, "15 minutes") := by
  have h := rate_limiter_invariant authRateLimit 0 5 6 false
    [(0, false), (1, false), (2, false), (3, false), (4, false), (5, false)]
  constructor
  · exact (h.2.2.2.1 (by decide) (by decide)).1
  · exact (h.2.2.2.2.1 (by decide) (by decide)).2

end RestApi
